import Mathlib

/-!
Shallow embedding of the votra.io billing workflow core
(src/app/services/{timesheet,sow,project,invoice}_service.py,
src/app/routers/invoices.py, src/app/utils/audit.py).

Modelling conventions:
* Python `Decimal` values are embedded as `ℚ`; `Decimal` addition and
  multiplication are exact, as in the source.  `Decimal.quantize(Decimal("0.01"))`
  uses the default context rounding `ROUND_HALF_EVEN`, embedded as `quantize2`.
* Dates and timestamps are abstracted to `Int` day / time numbers; the
  `strftime`-style rendering of a date is abstracted to its decimal rendering
  (`toString`), which keeps the formats injective, as in the source.
* The transactional record store is embedded as an explicit `Store` value with
  per-table autoincrement counters; each service operation is a pure function
  `Store → ... → Except Err (result × Store)`.  A raised Python `ValueError`
  becomes `Err.valueError msg` with the source's message text (the single
  quotes that some source messages put around interpolated values are dropped,
  because string content is otherwise kept verbatim).
* Audit `old_values` / `new_values` dict payloads are embedded as association
  lists `List (String × String)` instead of their `json.dumps` serialization
  (the serialization is injective on these payloads); Python's
  `if old_values:` falsiness check (None or empty dict) is mirrored.
* DB-managed `created_at` defaults are not part of any service computation and
  are omitted; `updated_at` fields written by the services are kept, with the
  current time passed in as a parameter.
-/

namespace Votra

/-- `Decimal.quantize(Decimal("0.01"))` under the default context rounding
`ROUND_HALF_EVEN`: round `q * 100` to the nearest integer, ties to even. -/
def roundHalfEven (q : ℚ) : ℤ :=
  let f : ℤ := ⌊q⌋
  if q - f < 1/2 then f
  else if q - f > 1/2 then f + 1
  else if f % 2 = 0 then f else f + 1

/-- Quantize a decimal value to 2 decimal places, ties to even
(the behaviour of `.quantize(Decimal("0.01"))` in the source). -/
def quantize2 (q : ℚ) : ℚ := (roundHalfEven (q * 100) : ℚ) / 100

/-- Modelled from the spec: the spec's claimed tax rounding
"`round(subtotal * 0.10, 2)` using round-half-up to 2 decimal places".
Round-half-up rounds ties upward (away from zero on the nonnegative
amounts involved): `⌊q * 100 + 1/2⌋ / 100`.  This definition follows the
spec's words and is compared against the source's `quantize2`. -/
def specRoundHalfUp2 (q : ℚ) : ℚ := ((⌊q * 100 + 1/2⌋ : ℤ) : ℚ) / 100

/-- Python `x or d` for `x : int | None` (`None` and `0` are falsy). -/
def orNz (o : Option Nat) (d : Nat) : Nat :=
  match o with
  | some n => if n = 0 then d else n
  | none => d

/-- `f"{sequence:04d}"`: decimal rendering left-padded with zeros to width 4. -/
def pad4 (n : Nat) : String :=
  let s := toString n
  if s.length < 4 then String.mk (List.replicate (4 - s.length) '0') ++ s else s

/-- A raised error: Python `ValueError` (services) or the routers' 403 check. -/
inductive Err where
  | valueError (msg : String)
  | forbidden (msg : String)
deriving Repr, DecidableEq

/-- `app.database.models.Client` (only the fields the embedded operations
read: `session.get(Client, id)` checks existence). -/
structure Client where
  id : Nat
  is_active : Bool := true
deriving Repr, DecidableEq

/-- `app.database.models.SOW`. -/
structure SOW where
  id : Nat
  client_id : Nat
  title : String
  description : Option String := none
  start_date : Int
  end_date : Int
  rate : ℚ
  total_budget : ℚ
  status : String
  created_by : Nat
  approved_by : Option Nat := none
  approved_at : Option Int := none
deriving Repr, DecidableEq

/-- `app.database.models.Project`. -/
structure Project where
  id : Nat
  sow_id : Nat
  name : String
  description : Option String := none
  status : String
  start_date : Int
  end_date : Int
  budget : ℚ
  created_by : Nat
deriving Repr, DecidableEq

/-- `app.database.models.Timesheet`. -/
structure Timesheet where
  id : Nat
  project_id : Nat
  consultant_id : Nat
  invoice_id : Option Nat := none
  work_date : Int
  hours_logged : ℚ
  billing_rate : ℚ
  billable_amount : ℚ
  is_billable : Bool := true
  notes : Option String := none
  status : String
  submitted_at : Option Int := none
  approved_by : Option Nat := none
  approved_at : Option Int := none
  updated_at : Option Int := none
deriving Repr, DecidableEq

/-- `app.database.models.Invoice`. -/
structure Invoice where
  id : Nat
  client_id : Nat
  project_id : Option Nat := none
  invoice_number : String
  invoice_date : Int
  due_date : Option Int := none
  subtotal : ℚ
  tax_amount : ℚ := 0
  discount_amount : ℚ := 0
  total_amount : ℚ
  status : String
  payment_date : Option Int := none
deriving Repr, DecidableEq

/-- `app.database.models.LineItem`. -/
structure LineItem where
  id : Nat
  invoice_id : Nat
  description : String
  quantity : ℚ
  unit_price : ℚ
  line_total : ℚ
deriving Repr, DecidableEq

/-- `app.database.models.AuditLog`; dict payloads kept as association lists. -/
structure AuditLog where
  id : Nat
  user_id : Nat
  action : String
  entity_type : String
  entity_id : Nat
  old_values : Option (List (String × String)) := none
  new_values : Option (List (String × String)) := none
  description : Option String := none
deriving Repr, DecidableEq

/-- The transactional record store, with per-table autoincrement counters. -/
structure Store where
  clients : List Client := []
  sows : List SOW := []
  projects : List Project := []
  timesheets : List Timesheet := []
  invoices : List Invoice := []
  lineItems : List LineItem := []
  auditLogs : List AuditLog := []
  nextSowId : Nat := 1
  nextProjectId : Nat := 1
  nextTimesheetId : Nat := 1
  nextInvoiceId : Nat := 1
  nextLineItemId : Nat := 1
  nextAuditId : Nat := 1
deriving Repr, DecidableEq

/-- Python `json.dumps(vals) if vals else None`: `None` and the empty dict
are both stored as NULL. -/
def normVals : Option (List (String × String)) → Option (List (String × String))
  | none => none
  | some l => if l.isEmpty then none else some l

/-- `app.utils.audit.log_audit`: append one audit row. -/
def log_audit (s : Store) (user_id : Nat) (action : String) (entity_type : String)
    (entity_id : Nat) (old_values : Option (List (String × String)))
    (new_values : Option (List (String × String)))
    (description : Option String) : AuditLog × Store :=
  let entry : AuditLog :=
    { id := s.nextAuditId, user_id := user_id, action := action,
      entity_type := entity_type, entity_id := entity_id,
      old_values := normVals old_values, new_values := normVals new_values,
      description := description }
  (entry, { s with auditLogs := s.auditLogs ++ [entry], nextAuditId := s.nextAuditId + 1 })


/-- The error-message f-strings of the source that the claims refer to. -/
def msgProjectNotFound (project_id : Nat) : String :=
  s!"Project with ID {project_id} not found"

/-- `create_timesheet` date-range message. -/
def msgWorkDateRange (sd ed : Int) : String :=
  s!"work_date must be between {sd} and {ed}"

/-- `generate_invoice` empty-selection message. -/
def msgNoApprovedTimesheets (project_id : Nat) : String :=
  s!"No approved timesheets found for project {project_id}"

/-- `generate_invoice` missing-client message. -/
def msgClientNotFound (client_id : Nat) : String :=
  s!"Client with ID {client_id} not found"

/-- `submit_sow` guard message. -/
def msgCannotSubmitSow (st : String) : String :=
  s!"Cannot submit SOW with status {st}. Only draft SOWs can be submitted."

/-- `approve_sow` guard message. -/
def msgCannotApproveSow (st : String) : String :=
  s!"Cannot approve/reject SOW with status {st}. Only pending SOWs can be approved/rejected."

/-- `create_project_from_sow` guard message. -/
def msgSowNotApproved (st : String) : String :=
  s!"SOW must be approved to create a project (current status: {st})"

/-- `create_project_from_sow` duplicate-project message. -/
def msgProjectExists (sow_id : Nat) : String :=
  s!"Project already exists for SOW {sow_id}"

/-- `TimesheetService.create_timesheet`. -/
def create_timesheet (s : Store) (project_id consultant_id : Nat) (work_date : Int)
    (hours_logged billing_rate : ℚ) (is_billable : Bool) (notes : Option String)
    (created_by : Option Nat) : Except Err (Timesheet × Store) :=
  match s.projects.find? (fun p => p.id == project_id) with
  | none => .error (.valueError (msgProjectNotFound project_id))
  | some project =>
    if work_date < project.start_date ∨ work_date > project.end_date then
      .error (.valueError (msgWorkDateRange project.start_date project.end_date))
    else if hours_logged ≤ 0 ∨ hours_logged > 24 then
      .error (.valueError "hours_logged must be between 0 and 24")
    else
      let billable_amount : ℚ := if is_billable then hours_logged * billing_rate else 0
      let ts : Timesheet :=
        { id := s.nextTimesheetId, project_id := project_id,
          consultant_id := consultant_id, work_date := work_date,
          hours_logged := hours_logged, billing_rate := billing_rate,
          billable_amount := billable_amount, is_billable := is_billable,
          notes := notes, status := "draft" }
      let s1 : Store := { s with timesheets := s.timesheets ++ [ts],
                                 nextTimesheetId := s.nextTimesheetId + 1 }
      let hs := toString hours_logged
      let (_, s2) := log_audit s1 (orNz created_by consultant_id) "create" "timesheet"
        ts.id none
        (some [("project_id", toString project_id), ("work_date", toString work_date),
               ("hours_logged", toString hours_logged),
               ("billing_rate", toString billing_rate),
               ("is_billable", toString is_billable)])
        (some s!"Timesheet entry created for {work_date}: {hs} hours")
      .ok (ts, s2)

/-- The field-update pass of `TimesheetService.update_timesheet` (Python
`if work_date: ...`, `if hours_logged is not None: ...`, etc.; date objects
are always truthy, so `if work_date:` is an is-not-None test). -/
def applyTimesheetUpdate (t : Timesheet) (work_date : Option Int)
    (hours_logged billing_rate : Option ℚ) (is_billable : Option Bool)
    (notes : Option String) : Timesheet :=
  { t with work_date := work_date.getD t.work_date,
           hours_logged := hours_logged.getD t.hours_logged,
           billing_rate := billing_rate.getD t.billing_rate,
           is_billable := is_billable.getD t.is_billable,
           notes := match notes with | some n => some n | none => t.notes }

/-- `TimesheetService.update_timesheet` (draft only; recomputes
`billable_amount` from the post-update fields; no project date-range check). -/
def update_timesheet (s : Store) (timesheet_id : Nat) (work_date : Option Int)
    (hours_logged billing_rate : Option ℚ) (is_billable : Option Bool)
    (notes : Option String) (updated_by : Option Nat) (now : Int) :
    Except Err (Timesheet × Store) :=
  match s.timesheets.find? (fun t => t.id == timesheet_id) with
  | none => .error (.valueError s!"Timesheet with ID {timesheet_id} not found")
  | some t =>
    if t.status ≠ "draft" then
      let st := t.status
      .error (.valueError s!"Cannot update timesheet with status {st} (only draft can be updated)")
    else
      let old_values : List (String × String) :=
        [("work_date", toString t.work_date), ("hours_logged", toString t.hours_logged),
         ("billing_rate", toString t.billing_rate), ("is_billable", toString t.is_billable),
         ("notes", toString t.notes)]
      let t1 := applyTimesheetUpdate t work_date hours_logged billing_rate is_billable notes
      let newAmount : ℚ := if t1.is_billable then t1.hours_logged * t1.billing_rate else 0
      let t2 : Timesheet := { t1 with billable_amount := newAmount, updated_at := some now }
      let s1 : Store :=
        { s with timesheets := s.timesheets.map (fun x => if x.id == timesheet_id then t2 else x) }
      let hs := toString t2.hours_logged
      let rs := toString t2.billing_rate
      let (_, s2) := log_audit s1 (orNz updated_by 0) "update" "timesheet" t2.id
        (some old_values)
        (some [("work_date", toString t2.work_date), ("hours_logged", toString t2.hours_logged),
               ("billing_rate", toString t2.billing_rate), ("is_billable", toString t2.is_billable),
               ("notes", toString t2.notes)])
        (some s!"Timesheet entry updated: {hs} hours at ${rs}/hr")
      .ok (t2, s2)

/-- `SOWCreate` request model (`app.models.sow`). -/
structure SOWCreate where
  client_id : Nat
  title : String
  description : Option String := none
  start_date : Int
  end_date : Int
  rate : ℚ
  total_budget : ℚ
deriving Repr, DecidableEq

/-- `SOWService.create_sow`: validates the client exists, creates the SOW in
`draft` status, and appends one audit record. -/
def create_sow (s : Store) (sow_data : SOWCreate) (created_by : Nat) :
    Except Err (SOW × Store) :=
  match s.clients.find? (fun c => c.id == sow_data.client_id) with
  | none => .error (.valueError (msgClientNotFound sow_data.client_id))
  | some _ =>
    let sow : SOW :=
      { id := s.nextSowId, client_id := sow_data.client_id,
        title := sow_data.title, description := sow_data.description,
        start_date := sow_data.start_date, end_date := sow_data.end_date,
        rate := sow_data.rate, total_budget := sow_data.total_budget,
        status := "draft", created_by := created_by }
    let s1 : Store := { s with sows := s.sows ++ [sow], nextSowId := s.nextSowId + 1 }
    let title := sow.title
    let (_, s2) := log_audit s1 created_by "create" "sow" sow.id none
      (some [("status", sow.status), ("client_id", toString sow.client_id),
             ("title", sow.title), ("total_budget", toString sow.total_budget)])
      (some s!"SOW {title} created in draft status")
    .ok (sow, s2)

/-- `SOWUpdate` request model (`app.models.sow`): optional fields only;
an absent field is an unset field under `model_dump(exclude_unset=True)`. -/
structure SOWUpdate where
  title : Option String := none
  description : Option String := none
  rate : Option ℚ := none
  total_budget : Option ℚ := none
deriving Repr, DecidableEq

/-- `setattr` loop of `SOWService.update_sow`: only provided fields change. -/
def applySOWUpdate (sow : SOW) (u : SOWUpdate) : SOW :=
  { sow with title := u.title.getD sow.title,
             description := match u.description with
                            | some d => some d
                            | none => sow.description,
             rate := u.rate.getD sow.rate,
             total_budget := u.total_budget.getD sow.total_budget }

/-- `SOWService.update_sow` (draft only; returns `none` when the SOW does not
exist; writes no audit entry). -/
def update_sow (s : Store) (sow_id : Nat) (sow_data : SOWUpdate) :
    Except Err (Option SOW × Store) :=
  match s.sows.find? (fun x => x.id == sow_id) with
  | none => .ok (none, s)
  | some sow =>
    if sow.status ≠ "draft" then
      let st := sow.status
      .error (.valueError s!"Cannot update SOW with status {st}. Only draft SOWs can be updated.")
    else
      let sow2 := applySOWUpdate sow sow_data
      .ok (some sow2,
        { s with sows := s.sows.map (fun x => if x.id == sow_id then sow2 else x) })

/-- `SOWService.submit_sow` (draft → pending, with audit of the before/after
status). -/
def submit_sow (s : Store) (sow_id : Nat) : Except Err (Option SOW × Store) :=
  match s.sows.find? (fun x => x.id == sow_id) with
  | none => .ok (none, s)
  | some sow =>
    if sow.status ≠ "draft" then
      .error (.valueError (msgCannotSubmitSow sow.status))
    else
      let old_status := sow.status
      let sow2 : SOW := { sow with status := "pending" }
      let s1 : Store :=
        { s with sows := s.sows.map (fun x => if x.id == sow_id then sow2 else x) }
      let title := sow.title
      let (_, s2) := log_audit s1 sow.created_by "submit" "sow" sow2.id
        (some [("status", old_status)]) (some [("status", "pending")])
        (some s!"SOW {title} submitted for approval")
      .ok (some sow2, s2)

/-- `SOWService.approve_sow` (pending → approved/rejected, stamping approver
and timestamp, with audit of the before/after status). -/
def approve_sow (s : Store) (sow_id : Nat) (approved : Bool) (approved_by : Nat)
    (now : Int) : Except Err (Option SOW × Store) :=
  match s.sows.find? (fun x => x.id == sow_id) with
  | none => .ok (none, s)
  | some sow =>
    if sow.status ≠ "pending" then
      .error (.valueError (msgCannotApproveSow sow.status))
    else
      let old_status := sow.status
      let new_status := if approved then "approved" else "rejected"
      let sow2 : SOW := { sow with status := new_status, approved_by := some approved_by,
                                   approved_at := some now }
      let s1 : Store :=
        { s with sows := s.sows.map (fun x => if x.id == sow_id then sow2 else x) }
      let action := if approved then "approve" else "reject"
      let title := sow.title
      let (_, s2) := log_audit s1 approved_by action "sow" sow2.id
        (some [("status", old_status)])
        (some [("status", new_status), ("approved_by", toString approved_by),
               ("approved_at", toString now)])
        (some s!"SOW {title} {new_status} by user {approved_by}")
      .ok (some sow2, s2)

/-- `SOWService.reject_sow`: builds `SOWApprove(approved=False, notes=notes)`
and delegates to `approve_sow` (the `notes` field is unused there). -/
def reject_sow (s : Store) (sow_id : Nat) (approved_by : Nat) (_notes : String)
    (now : Int) : Except Err (Option SOW × Store) :=
  approve_sow s sow_id false approved_by now

/-- `ProjectService.create_project_from_sow`. -/
def create_project_from_sow (s : Store) (sow_id created_by : Nat) :
    Except Err (Project × Store) :=
  match s.sows.find? (fun x => x.id == sow_id) with
  | none => .error (.valueError s!"SOW with ID {sow_id} not found")
  | some sow =>
    if sow.status ≠ "approved" then
      .error (.valueError (msgSowNotApproved sow.status))
    else if (s.projects.find? (fun p => p.sow_id == sow_id)).isSome then
      .error (.valueError (msgProjectExists sow_id))
    else
      let project : Project :=
        { id := s.nextProjectId, sow_id := sow_id, name := sow.title,
          description := sow.description, status := "in_progress",
          start_date := sow.start_date, end_date := sow.end_date,
          budget := sow.total_budget, created_by := created_by }
      let s1 : Store := { s with projects := s.projects ++ [project],
                                 nextProjectId := s.nextProjectId + 1 }
      let name := project.name
      let (_, s2) := log_audit s1 created_by "create" "project" project.id none
        (some [("status", project.status), ("sow_id", toString sow_id),
               ("name", project.name), ("budget", toString project.budget)])
        (some s!"Project {name} created from approved SOW {sow_id}")
      .ok (project, s2)

/-- The record returned by `ProjectService.get_project_summary`
(`app.models.project.ProjectSummary`; the Python float percentages are
embedded as `ℚ`). -/
structure ProjectSummary where
  id : Nat
  sow_id : Nat
  name : String
  status : String
  start_date : Int
  end_date : Int
  budget : ℚ
  total_hours : ℚ
  billable_amount : ℚ
  hours_percentage : ℚ
  budget_percentage : ℚ
deriving Repr, DecidableEq

/-- `ProjectService.get_project_summary`.  The source leaves the timesheet
aggregation as a TODO and returns zeros for `total_hours` and
`billable_amount`. -/
def get_project_summary (s : Store) (project_id : Nat) : Option ProjectSummary :=
  (s.projects.find? (fun p => p.id == project_id)).map (fun project =>
    let total_hours : ℚ := 0
    let billable_amount : ℚ := 0
    let hours_percentage : ℚ := 0
    let budget_percentage : ℚ :=
      if project.budget > 0 then billable_amount / project.budget * 100 else 0
    { id := project.id, sow_id := project.sow_id, name := project.name,
      status := project.status, start_date := project.start_date,
      end_date := project.end_date, budget := project.budget,
      total_hours := total_hours, billable_amount := billable_amount,
      hours_percentage := hours_percentage,
      budget_percentage := budget_percentage })

/-- The `select(Timesheet).where(...)` filter of
`InvoiceService.generate_invoice`: approved, uninvoiced timesheets of the
project. -/
def invoiceSel (project_id : Nat) (t : Timesheet) : Bool :=
  t.project_id == project_id && t.status == "approved" && t.invoice_id.isNone

/-- The timesheet selection of `InvoiceService.generate_invoice`. -/
def selectTimesheets (s : Store) (project_id : Nat) : List Timesheet :=
  s.timesheets.filter (invoiceSel project_id)

/-- `InvoiceService._generate_invoice_number`: `INV-YYYYMMDD-NNNN`, where the
sequence counts the invoices whose number carries the same date part. -/
def generateInvoiceNumber (s : Store) (invoice_date : Int) : String :=
  let date_str := toString invoice_date
  let pfx := "INV-" ++ date_str ++ "-"
  let invoices_today := s.invoices.filter (fun i => pfx.isPrefixOf i.invoice_number)
  let sequence := invoices_today.length + 1
  "INV-" ++ date_str ++ "-" ++ pad4 sequence

/-- The line-item creation loop of `InvoiceService.generate_invoice`: one
`LineItem` per selected timesheet, ids assigned sequentially. -/
def mkLineItems : Nat → Nat → List Timesheet → List LineItem
  | _, _, [] => []
  | nid, invId, t :: ts =>
    { id := nid, invoice_id := invId,
      description := "Consulting services - " ++ toString t.work_date,
      quantity := t.hours_logged, unit_price := t.billing_rate,
      line_total := t.billable_amount } :: mkLineItems (nid + 1) invId ts

/-- `InvoiceService.generate_invoice`. -/
def generate_invoice (s : Store) (client_id project_id : Nat)
    (created_by : Option Nat) (invoice_date : Int) :
    Except Err (Invoice × Store) :=
  let timesheets := selectTimesheets s project_id
  if timesheets.isEmpty then
    .error (.valueError (msgNoApprovedTimesheets project_id))
  else
    match s.clients.find? (fun c => c.id == client_id) with
    | none => .error (.valueError (msgClientNotFound client_id))
    | some _ =>
      match s.projects.find? (fun p => p.id == project_id) with
      | none => .error (.valueError (msgProjectNotFound project_id))
      | some _ =>
        let subtotal := (timesheets.map Timesheet.billable_amount).sum
        let tax_rate : ℚ := 1/10
        let tax_amount := quantize2 (subtotal * tax_rate)
        let total_amount := quantize2 (subtotal + tax_amount)
        let invoice_number := generateInvoiceNumber s invoice_date
        let invoice : Invoice :=
          { id := s.nextInvoiceId, client_id := client_id,
            project_id := some project_id, invoice_number := invoice_number,
            invoice_date := invoice_date, due_date := none,
            subtotal := subtotal, tax_amount := tax_amount,
            discount_amount := 0, total_amount := total_amount,
            status := "draft" }
        let items := mkLineItems s.nextLineItemId invoice.id timesheets
        let s1 : Store :=
          { s with invoices := s.invoices ++ [invoice],
                   nextInvoiceId := s.nextInvoiceId + 1,
                   lineItems := s.lineItems ++ items,
                   nextLineItemId := s.nextLineItemId + timesheets.length,
                   timesheets := s.timesheets.map (fun t =>
                     if invoiceSel project_id t
                     then { t with invoice_id := some invoice.id } else t) }
        let n := timesheets.length
        let (_, s2) := log_audit s1 (orNz created_by 1) "create" "invoice" invoice.id
          none
          (some [("client_id", toString client_id), ("project_id", toString project_id),
                 ("subtotal", toString subtotal), ("tax_amount", toString tax_amount),
                 ("total_amount", toString total_amount)])
          (some s!"Invoice {invoice_number} generated for {n} timesheets")
        .ok (invoice, s2)

/-- `InvoiceService.validate_invoice_totals`: recompute the three totals from
the stored line items and raise on the first mismatch. -/
def validate_invoice_totals (s : Store) (invoice_id : Nat) : Except Err Bool :=
  match s.invoices.find? (fun i => i.id == invoice_id) with
  | none => .error (.valueError s!"Invoice with ID {invoice_id} not found")
  | some invoice =>
    let line_items := s.lineItems.filter (fun li => li.invoice_id == invoice_id)
    let calculated_subtotal := (line_items.map LineItem.line_total).sum
    let calculated_tax := quantize2 (calculated_subtotal * (1/10))
    let calculated_total := quantize2 (calculated_subtotal + calculated_tax)
    if calculated_subtotal ≠ invoice.subtotal then
      let a := calculated_subtotal
      let b := invoice.subtotal
      .error (.valueError s!"Subtotal mismatch: expected {a}, got {b}")
    else if calculated_tax ≠ invoice.tax_amount then
      let a := calculated_tax
      let b := invoice.tax_amount
      .error (.valueError s!"Tax mismatch: expected {a}, got {b}")
    else if calculated_total ≠ invoice.total_amount then
      let a := calculated_total
      let b := invoice.total_amount
      .error (.valueError s!"Total mismatch: expected {a}, got {b}")
    else
      .ok true

/-- `send_invoice` router handler (`app.routers.invoices`): role check, then
draft → sent; writes no audit entry. -/
def send_invoice (s : Store) (invoice_id : Nat) (role : String) :
    Except Err (Invoice × Store) :=
  if role ≠ "admin" ∧ role ≠ "project_manager" then
    .error (.forbidden "Only administrators and project managers can send invoices")
  else
    match s.invoices.find? (fun i => i.id == invoice_id) with
    | none => .error (.valueError s!"Invoice with ID {invoice_id} not found")
    | some invoice =>
      if invoice.status ≠ "draft" then
        let st := invoice.status
        .error (.valueError s!"Cannot send invoice in {st} status. Only draft invoices can be sent.")
      else
        let inv2 : Invoice := { invoice with status := "sent" }
        .ok (inv2,
          { s with invoices := s.invoices.map (fun x => if x.id == invoice_id then inv2 else x) })

/-- `mark_invoice_paid` router handler (`app.routers.invoices`): role check,
then any non-paid status → paid, recording the payment date; writes no audit
entry. -/
def mark_invoice_paid (s : Store) (invoice_id : Nat) (payment_date : Int)
    (role : String) : Except Err (Invoice × Store) :=
  if role ≠ "admin" ∧ role ≠ "accountant" then
    .error (.forbidden "Only administrators and accountants can mark invoices as paid")
  else
    match s.invoices.find? (fun i => i.id == invoice_id) with
    | none => .error (.valueError s!"Invoice with ID {invoice_id} not found")
    | some invoice =>
      if invoice.status = "paid" then
        .error (.valueError "Invoice is already marked as paid")
      else
        let inv2 : Invoice := { invoice with status := "paid",
                                             payment_date := some payment_date }
        .ok (inv2,
          { s with invoices := s.invoices.map (fun x => if x.id == invoice_id then inv2 else x) })

/-! Helper lemmas about the list primitives the store operations use. -/

theorem find?_replace {α : Type} (p : α → Bool) (b : α) (hb : p b = true) :
    ∀ (l : List α) (a : α), l.find? p = some a →
      (l.map (fun x => if p x then b else x)).find? p = some b := by
  intro l
  induction l with
  | nil => intro a h; simp [List.find?] at h
  | cons c tl ih =>
    intro a h
    by_cases hc : p c = true
    · simp [List.find?, hc, hb]
    · simp only [Bool.not_eq_true] at hc
      simp only [List.find?, hc] at h
      simpa [List.find?, hc] using ih a h

theorem find?_append_none {α : Type} {l1 l2 : List α} {p : α → Bool}
    (h : l1.find? p = none) : (l1 ++ l2).find? p = l2.find? p := by
  rw [List.find?_append, h, Option.none_or]

theorem mkLineItems_invoice_id : ∀ (n invId : Nat) (ts : List Timesheet),
    ∀ li ∈ mkLineItems n invId ts, li.invoice_id = invId := by
  intro n invId ts
  induction ts generalizing n with
  | nil => simp [mkLineItems]
  | cons t tl ih =>
    intro li hli
    simp only [mkLineItems, List.mem_cons] at hli
    rcases hli with h | h
    · subst h; rfl
    · exact ih _ li h

theorem mkLineItems_map_line_total : ∀ (n invId : Nat) (ts : List Timesheet),
    (mkLineItems n invId ts).map LineItem.line_total = ts.map Timesheet.billable_amount := by
  intro n invId ts
  induction ts generalizing n with
  | nil => simp [mkLineItems]
  | cons t tl ih => simp [mkLineItems, ih]

theorem mkLineItems_forall₂ (invId : Nat) : ∀ (n : Nat) (ts : List Timesheet),
    List.Forall₂ (fun li t => li.invoice_id = invId ∧
      li.description = "Consulting services - " ++ toString t.work_date ∧
      li.quantity = t.hours_logged ∧ li.unit_price = t.billing_rate ∧
      li.line_total = t.billable_amount) (mkLineItems n invId ts) ts := by
  intro n ts
  induction ts generalizing n with
  | nil => exact List.Forall₂.nil
  | cons t tl ih => exact List.Forall₂.cons ⟨rfl, rfl, rfl, rfl, rfl⟩ (ih _)

/-! Concrete stores used by witnesses, counterexamples and code-bug
evaluations. -/

/-- A project with dates [0, 100] and budget 1000, used by sample stores. -/
def projP : Project :=
  { id := 1, sow_id := 1, name := "P", status := "in_progress",
    start_date := 0, end_date := 100, budget := 1000, created_by := 1 }

/-- One approved uninvoiced timesheet with `billable_amount = 925.85`
(5 hours at 185.17): the half-way tax case `925.85 * 0.10 = 92.585`. -/
def stHalfway : Store :=
  { clients := [{ id := 1 }], projects := [projP],
    timesheets := [{ id := 1, project_id := 1, consultant_id := 2, work_date := 5,
                     hours_logged := 5, billing_rate := 18517/100,
                     billable_amount := 92585/100, status := "approved" }],
    nextTimesheetId := 2 }

/-- One approved uninvoiced timesheet with `billable_amount = 925.88`
(the spec's Scenario D amount). -/
def stScenD : Store :=
  { clients := [{ id := 1 }], projects := [projP],
    timesheets := [{ id := 1, project_id := 1, consultant_id := 2, work_date := 5,
                     hours_logged := 15/2, billing_rate := 12345/100,
                     billable_amount := 92588/100, status := "approved" }],
    nextTimesheetId := 2 }

/-- Three approved uninvoiced timesheets, 8 hours at 150 each
(the spec's Scenario C). -/
def stScenC : Store :=
  { clients := [{ id := 1 }], projects := [projP],
    timesheets :=
      [{ id := 1, project_id := 1, consultant_id := 2, work_date := 5,
         hours_logged := 8, billing_rate := 150, billable_amount := 1200,
         status := "approved" },
       { id := 2, project_id := 1, consultant_id := 2, work_date := 6,
         hours_logged := 8, billing_rate := 150, billable_amount := 1200,
         status := "approved" },
       { id := 3, project_id := 1, consultant_id := 2, work_date := 7,
         hours_logged := 8, billing_rate := 150, billable_amount := 1200,
         status := "approved" }],
    nextTimesheetId := 4 }

/-- A store with only a client and a project: timesheet creation target. -/
def stProj : Store := { clients := [{ id := 1 }], projects := [projP] }

/-- A draft timesheet (2 hours at 100, billable 200). -/
def tsDraft : Timesheet :=
  { id := 1, project_id := 1, consultant_id := 2, work_date := 5,
    hours_logged := 2, billing_rate := 100, billable_amount := 200,
    status := "draft" }

/-- A store with one draft timesheet. -/
def stDraftTs : Store :=
  { clients := [{ id := 1 }], projects := [projP], timesheets := [tsDraft],
    nextTimesheetId := 2 }

/-- A draft SOW. -/
def sowDraft : SOW :=
  { id := 1, client_id := 1, title := "S", start_date := 0, end_date := 100,
    rate := 150, total_budget := 1000, status := "draft", created_by := 1 }

/-- The same SOW in pending status. -/
def sowPending : SOW := { sowDraft with status := "pending" }

/-- The same SOW approved, with description, approver and timestamp. -/
def sowApproved : SOW :=
  { sowDraft with description := some "D", status := "approved", approved_by := some 9, approved_at := some 50 }

/-- A store with one draft SOW. -/
def stDraftSow : Store :=
  { clients := [{ id := 1 }], sows := [sowDraft], nextSowId := 2 }

/-- A store with one pending SOW. -/
def stPendingSow : Store :=
  { clients := [{ id := 1 }], sows := [sowPending], nextSowId := 2 }

/-- A store with one approved SOW and no project. -/
def stApprovedSow : Store :=
  { clients := [{ id := 1 }], sows := [sowApproved], nextSowId := 2 }

/-- The approved-SOW store after a project has been derived from the SOW. -/
def stApprovedSowWithProject : Store :=
  { stApprovedSow with projects := [projP], nextProjectId := 2 }

/-- A draft invoice. -/
def invDraft : Invoice :=
  { id := 1, client_id := 1, project_id := some 1,
    invoice_number := "INV-0-0001", invoice_date := 0,
    subtotal := 1200, tax_amount := 120, total_amount := 1320,
    status := "draft" }

/-- A store with one draft invoice. -/
def stDraftInvoice : Store :=
  { clients := [{ id := 1 }], projects := [projP], invoices := [invDraft],
    nextInvoiceId := 2 }

/-! Claim theorems. -/

unseal Rat.add Rat.mul Rat.inv Rat.sub in
/-- C1 counterexample: the claim says tax is rounded half-up, but
`generate_invoice` quantizes with the default `ROUND_HALF_EVEN`.  On a
selected timesheet set with subtotal 925.85 the code computes
`tax_amount = 92.58` (925.85 * 0.10 = 92.585 rounds to the even cent),
whereas round-half-up gives 92.59. -/
theorem C1_counterexample :
    (generate_invoice stHalfway 1 1 none 20240101).toOption.map
        (fun p => p.1.subtotal) = some (18517/20) ∧
    (generate_invoice stHalfway 1 1 none 20240101).toOption.map
        (fun p => p.1.tax_amount) = some (4629/50) ∧
    specRoundHalfUp2 ((18517/20 : ℚ) * (1/10)) = 9259/100 ∧
    ((4629/50 : ℚ)) ≠ 9259/100 := by decide

unseal Rat.add Rat.mul Rat.inv Rat.sub in
/-- C2: `create_timesheet` and `update_timesheet` set
`billable_amount = hours_logged * billing_rate` with no quantization:
7.5 hours at rate 123.45 yields the stored value 925.875, not the
2-decimal-rounded 925.88 required by the claim (and by the repository's
own response models and tests). -/
theorem C2_billable_amount_unrounded :
    (create_timesheet stProj 1 2 5 (15/2) (12345/100) true none none).toOption.map
        (fun p => p.1.billable_amount) = some (7407/8) ∧
    (update_timesheet stDraftTs 1 none (some (15/2)) (some (12345/100)) none none
        none 0).toOption.map (fun p => p.1.billable_amount) = some (7407/8) ∧
    quantize2 ((15/2 : ℚ) * (12345/100)) = 92588/100 ∧
    ((7407/8 : ℚ)) ≠ 92588/100 := by decide

unseal Rat.add Rat.mul Rat.inv Rat.sub in
/-- C3 counterexample: `update_sow`, `send_invoice` and `mark_invoice_paid`
each mutate their entity yet append no audit record (the audit log stays
empty), refuting the claim that every state-changing workflow operation
appends an audit record. -/
theorem C3_counterexample :
    (update_sow stDraftSow 1 { title := some "T2" }).toOption.map
        (fun p => ((p.1.map SOW.title), p.2.auditLogs.length)) = some (some "T2", 0) ∧
    (send_invoice stDraftInvoice 1 "admin").toOption.map
        (fun p => (p.1.status, p.2.auditLogs.length)) = some ("sent", 0) ∧
    (mark_invoice_paid stDraftInvoice 1 77 "admin").toOption.map
        (fun p => (p.1.status, p.1.payment_date, p.2.auditLogs.length)) =
      some ("paid", some 77, 0) := by decide

unseal Rat.add Rat.mul Rat.inv Rat.sub in
/-- C8: `get_project_summary` is claimed to aggregate the project's
timesheets, but the source hard-codes `total_hours` and `billable_amount`
to 0 (a TODO), so on a project with budget 1000 and 3600 of approved
billable work the summary still reports zeros and `budget_percentage = 0`. -/
theorem C8_project_summary_zeros :
    (get_project_summary stScenC 1).map
        (fun ps => (ps.total_hours, ps.billable_amount, ps.budget_percentage)) =
      some (0, 0, 0) ∧
    ((stScenC.timesheets.filter
        (fun t => t.project_id == 1 && t.status == "approved")).map
      Timesheet.billable_amount).sum = 3600 ∧
    ((0 : ℚ)) ≠ 3600 := by decide

theorem submit_sow_not_draft (s : Store) (i : Nat) (sow : SOW)
    (h : s.sows.find? (fun x => x.id == i) = some sow) (hst : sow.status ≠ "draft") :
    submit_sow s i = .error (.valueError (msgCannotSubmitSow sow.status)) := by
  simp [submit_sow, h, hst]

theorem approve_sow_not_pending (s : Store) (i : Nat) (sow : SOW) (ap : Bool)
    (u : Nat) (now : Int)
    (h : s.sows.find? (fun x => x.id == i) = some sow) (hst : sow.status ≠ "pending") :
    approve_sow s i ap u now = .error (.valueError (msgCannotApproveSow sow.status)) := by
  simp [approve_sow, h, hst]

theorem submit_sow_draft (s : Store) (i : Nat) (sow : SOW)
    (h : s.sows.find? (fun x => x.id == i) = some sow) (hst : sow.status = "draft") :
    ∃ sow2 s2, submit_sow s i = .ok (some sow2, s2) ∧
      sow2 = { sow with status := "pending" } ∧
      s2.sows = s.sows.map (fun x => if x.id == i then sow2 else x) := by
  simp only [submit_sow, h]
  rw [if_neg (by simp [hst])]
  exact ⟨_, _, rfl, rfl, rfl⟩

/-- C9: `submit_sow` fails with the InvalidState message unless the SOW's
status is `draft`; `approve_sow` fails with the InvalidState message unless
the status is `pending`; and submitting twice in a row makes the second call
fail with the InvalidState message (the first submit moved the SOW to
`pending`). -/
theorem C9_sow_transition_guards :
    (∀ (s : Store) (i : Nat) (sow : SOW),
        s.sows.find? (fun x => x.id == i) = some sow → sow.status ≠ "draft" →
        submit_sow s i = .error (.valueError (msgCannotSubmitSow sow.status))) ∧
    (∀ (s : Store) (i : Nat) (sow : SOW) (ap : Bool) (u : Nat) (now : Int),
        s.sows.find? (fun x => x.id == i) = some sow → sow.status ≠ "pending" →
        approve_sow s i ap u now =
          .error (.valueError (msgCannotApproveSow sow.status))) ∧
    (∀ (s : Store) (i : Nat) (sow : SOW),
        s.sows.find? (fun x => x.id == i) = some sow → sow.status = "draft" →
        ∃ r, submit_sow s i = .ok r ∧
          submit_sow r.2 i = .error (.valueError (msgCannotSubmitSow "pending"))) := by
  refine ⟨submit_sow_not_draft, approve_sow_not_pending, ?_⟩
  intro s i sow h hst
  obtain ⟨sow2, s2, hrun, hsow2, hsows⟩ := submit_sow_draft s i sow h hst
  have hideq : sow.id = i := by simpa using List.find?_some h
  have hid2 : (sow2.id == i) = true := by subst hsow2; simp [hideq]
  have hfind2 : s2.sows.find? (fun x => x.id == i) = some sow2 := by
    rw [hsows]
    exact find?_replace (fun x => x.id == i) sow2 hid2 s.sows sow h
  refine ⟨(some sow2, s2), hrun, ?_⟩
  have := submit_sow_not_draft s2 i sow2 hfind2 (by subst hsow2; simp)
  rw [this, hsow2]

unseal Rat.add Rat.mul Rat.inv Rat.sub in
/-- C9 witness: on a pending SOW, submit fails; on a draft SOW, approve
fails; and on a draft SOW two consecutive submits end in the InvalidState
failure. -/
theorem C9_sow_transition_guards_witness :
    (submit_sow stPendingSow 1 =
      .error (.valueError (msgCannotSubmitSow "pending"))) ∧
    (approve_sow stDraftSow 1 true 9 50 =
      .error (.valueError (msgCannotApproveSow "draft"))) ∧
    (∃ r, submit_sow stDraftSow 1 = .ok r ∧
      submit_sow r.2 1 = .error (.valueError (msgCannotSubmitSow "pending"))) := by
  obtain ⟨h1, h2, h3⟩ := C9_sow_transition_guards
  refine ⟨?_, ?_, ?_⟩
  · exact h1 stPendingSow 1 sowPending (by decide) (by decide)
  · exact h2 stDraftSow 1 sowDraft true 9 50 (by decide) (by decide)
  · exact h3 stDraftSow 1 sowDraft (by decide) (by decide)

/-- An empty store. -/
def stEmpty : Store := {}

/-- A SOW-creation request targeting client 1. -/
def sowCreateData : SOWCreate :=
  { client_id := 1, title := "S", start_date := 0, end_date := 100,
    rate := 150, total_budget := 1000 }

/-- An approved uninvoiced timesheet referencing project 1. -/
def tsApproved : Timesheet :=
  { id := 1, project_id := 1, consultant_id := 2, work_date := 5,
    hours_logged := 8, billing_rate := 150, billable_amount := 1200,
    status := "approved" }

/-- Approved timesheet present but no client record. -/
def stNoClient : Store :=
  { projects := [projP], timesheets := [tsApproved], nextTimesheetId := 2 }

/-- Approved timesheet and client present but no project record. -/
def stNoProject : Store :=
  { clients := [{ id := 1 }], timesheets := [tsApproved], nextTimesheetId := 2 }

/-- C4: `create_project_from_sow` fails with the InvalidState message when
the SOW is not approved, fails with the AlreadyExists message when a project
already references the `sow_id` (check-then-insert), and otherwise creates an
`in_progress` project copying title/description/dates/budget from the SOW. -/
theorem C4_create_project_from_sow :
    (∀ (s : Store) (i cb : Nat) (sow : SOW),
        s.sows.find? (fun x => x.id == i) = some sow → sow.status ≠ "approved" →
        create_project_from_sow s i cb =
          .error (.valueError (msgSowNotApproved sow.status))) ∧
    (∀ (s : Store) (i cb : Nat) (sow : SOW),
        s.sows.find? (fun x => x.id == i) = some sow → sow.status = "approved" →
        (s.projects.find? (fun p => p.sow_id == i)).isSome →
        create_project_from_sow s i cb =
          .error (.valueError (msgProjectExists i))) ∧
    (∀ (s : Store) (i cb : Nat) (sow : SOW),
        s.sows.find? (fun x => x.id == i) = some sow → sow.status = "approved" →
        s.projects.find? (fun p => p.sow_id == i) = none →
        ∃ p s2, create_project_from_sow s i cb = .ok (p, s2) ∧
          p.status = "in_progress" ∧ p.name = sow.title ∧
          p.description = sow.description ∧ p.start_date = sow.start_date ∧
          p.end_date = sow.end_date ∧ p.budget = sow.total_budget) := by
  refine ⟨?_, ?_, ?_⟩
  · intro s i cb sow h hst
    simp [create_project_from_sow, h, hst]
  · intro s i cb sow h hst hex
    simp [create_project_from_sow, h, hst, hex]
  · intro s i cb sow h hst hex
    simp only [create_project_from_sow, h]
    rw [if_neg (by simp [hst])]
    rw [if_neg (by simp [hex])]
    exact ⟨_, _, rfl, rfl, rfl, rfl, rfl, rfl, rfl⟩

unseal Rat.add Rat.mul Rat.inv Rat.sub in
/-- C4 witness: a draft SOW cannot become a project; a second derivation from
the same approved SOW fails with the AlreadyExists message; a first
derivation succeeds and copies the SOW fields. -/
theorem C4_create_project_from_sow_witness :
    (create_project_from_sow stDraftSow 1 7 =
      .error (.valueError (msgSowNotApproved "draft"))) ∧
    (create_project_from_sow stApprovedSowWithProject 1 7 =
      .error (.valueError (msgProjectExists 1))) ∧
    (∃ p s2, create_project_from_sow stApprovedSow 1 7 = .ok (p, s2) ∧
      p.status = "in_progress" ∧ p.name = sowApproved.title ∧
      p.description = sowApproved.description ∧
      p.start_date = sowApproved.start_date ∧
      p.end_date = sowApproved.end_date ∧ p.budget = sowApproved.total_budget) := by
  obtain ⟨h1, h2, h3⟩ := C4_create_project_from_sow
  exact ⟨h1 stDraftSow 1 7 sowDraft (by decide) (by decide),
         h2 stApprovedSowWithProject 1 7 sowApproved (by decide) (by decide) (by decide),
         h3 stApprovedSow 1 7 sowApproved (by decide) (by decide) (by decide)⟩

/-- C10: on a draft timesheet, `update_timesheet` accepts any `work_date`
(no project date-range validation on update) and stores it; the date-range
check that rejects an out-of-range `work_date` with the OutOfRange message
is performed only by `create_timesheet`. -/
theorem C10_update_timesheet_no_date_check :
    (∀ (s : Store) (i : Nat) (t : Timesheet) (d : Int) (hl br : Option ℚ)
        (ib : Option Bool) (nt : Option String) (ub : Option Nat) (now : Int),
        s.timesheets.find? (fun x => x.id == i) = some t → t.status = "draft" →
        ∃ t2 s2, update_timesheet s i (some d) hl br ib nt ub now = .ok (t2, s2) ∧
          t2.work_date = d) ∧
    (∀ (s : Store) (pid cid : Nat) (d : Int) (hr rate : ℚ) (ib : Bool)
        (nt : Option String) (cb : Option Nat) (proj : Project),
        s.projects.find? (fun p => p.id == pid) = some proj →
        (d < proj.start_date ∨ d > proj.end_date) →
        create_timesheet s pid cid d hr rate ib nt cb =
          .error (.valueError (msgWorkDateRange proj.start_date proj.end_date))) := by
  refine ⟨?_, ?_⟩
  · intro s i t d hl br ib nt ub now h hst
    simp only [update_timesheet, h]
    rw [if_neg (by simp [hst])]
    exact ⟨_, _, rfl, rfl⟩
  · intro s pid cid d hr rate ib nt cb proj h hd
    simp only [create_timesheet, h]
    rw [if_pos hd]

unseal Rat.add Rat.mul Rat.inv Rat.sub in
/-- C10 witness: updating a draft timesheet to `work_date = 999`, far outside
the owning project's dates [0, 100], succeeds and stores 999, while creating
a timesheet with that date fails. -/
theorem C10_update_timesheet_no_date_check_witness :
    (∃ t2 s2, update_timesheet stDraftTs 1 (some 999) none none none none none 7 =
        .ok (t2, s2) ∧ t2.work_date = 999) ∧
    (create_timesheet stProj 1 2 999 8 150 true none none =
      .error (.valueError (msgWorkDateRange 0 100))) := by
  obtain ⟨h1, h2⟩ := C10_update_timesheet_no_date_check
  exact ⟨h1 stDraftTs 1 tsDraft 999 none none none none none 7 (by decide) (by decide),
         h2 stProj 1 2 999 8 150 true none none projP (by decide) (by decide)⟩

/-- C5: `generate_invoice` first selects the project's approved uninvoiced
timesheets and fails with the ValidationError message when that set is empty
(even if client or project do not exist); only with a non-empty selection
does it check the client (NotFound message) and then the project (NotFound
message). -/
theorem C5_generate_invoice_check_order :
    (∀ (s : Store) (cid pid : Nat) (cb : Option Nat) (d : Int),
        selectTimesheets s pid = [] →
        generate_invoice s cid pid cb d =
          .error (.valueError (msgNoApprovedTimesheets pid))) ∧
    (∀ (s : Store) (cid pid : Nat) (cb : Option Nat) (d : Int),
        selectTimesheets s pid ≠ [] →
        s.clients.find? (fun x => x.id == cid) = none →
        generate_invoice s cid pid cb d =
          .error (.valueError (msgClientNotFound cid))) ∧
    (∀ (s : Store) (cid pid : Nat) (cb : Option Nat) (d : Int) (c : Client),
        selectTimesheets s pid ≠ [] →
        s.clients.find? (fun x => x.id == cid) = some c →
        s.projects.find? (fun p => p.id == pid) = none →
        generate_invoice s cid pid cb d =
          .error (.valueError (msgProjectNotFound pid))) := by
  refine ⟨?_, ?_, ?_⟩
  · intro s cid pid cb d hsel
    simp [generate_invoice, hsel]
  · intro s cid pid cb d hsel hc
    have he : (selectTimesheets s pid).isEmpty = false := by
      simpa using hsel
    simp [generate_invoice, he, hc]
  · intro s cid pid cb d c hsel hc hp
    have he : (selectTimesheets s pid).isEmpty = false := by
      simpa using hsel
    simp [generate_invoice, he, hc, hp]

unseal Rat.add Rat.mul Rat.inv Rat.sub in
/-- C5 witness: on the empty store both client and project are missing, yet
the failure is the empty-selection ValidationError; with an approved
timesheet but no client the failure is the client NotFound; with client and
timesheet but no project it is the project NotFound. -/
theorem C5_generate_invoice_check_order_witness :
    (generate_invoice stEmpty 1 1 none 0 =
      .error (.valueError (msgNoApprovedTimesheets 1))) ∧
    (generate_invoice stNoClient 1 1 none 0 =
      .error (.valueError (msgClientNotFound 1))) ∧
    (generate_invoice stNoProject 1 1 none 0 =
      .error (.valueError (msgProjectNotFound 1))) := by
  obtain ⟨h1, h2, h3⟩ := C5_generate_invoice_check_order
  exact ⟨h1 stEmpty 1 1 none 0 (by decide),
         h2 stNoClient 1 1 none 0 (by decide) (by decide),
         h3 stNoProject 1 1 none 0 { id := 1 } (by decide) (by decide) (by decide)⟩

/-- C1 (amended): for every successful `generate_invoice`, `subtotal` is the
exact decimal sum of the selected timesheets' `billable_amount` values with
no intermediate rounding, `tax_amount` is `subtotal * 0.10` quantized to
2 decimal places with round-half-even (the default `Decimal` context
rounding, not the round-half-up the spec states), and `total_amount` is
`subtotal + tax_amount` quantized the same way. -/
theorem C1_generate_invoice_totals (s : Store) (cid pid : Nat) (cb : Option Nat)
    (d : Int) (inv : Invoice) (s2 : Store)
    (h : generate_invoice s cid pid cb d = .ok (inv, s2)) :
    inv.subtotal = ((selectTimesheets s pid).map Timesheet.billable_amount).sum ∧
    inv.tax_amount = quantize2 (inv.subtotal * (1/10)) ∧
    inv.total_amount = quantize2 (inv.subtotal + inv.tax_amount) := by
  simp only [generate_invoice] at h
  split at h
  · simp at h
  · split at h
    · simp at h
    · split at h
      · simp at h
      · rw [Except.ok.injEq, Prod.mk.injEq] at h
        obtain ⟨h1, h2⟩ := h
        subst h1
        exact ⟨rfl, rfl, rfl⟩

unseal Rat.add Rat.mul Rat.inv Rat.sub in
/-- C1 witness: on the Scenario D store (one approved timesheet billed at
925.88) the generated invoice has subtotal 925.88, tax 92.59 and total
1018.47, and satisfies the three total equations. -/
theorem C1_generate_invoice_totals_witness :
    ∃ inv s2, generate_invoice stScenD 1 1 none 0 = .ok (inv, s2) ∧
      (inv.subtotal =
        ((selectTimesheets stScenD 1).map Timesheet.billable_amount).sum ∧
       inv.tax_amount = quantize2 (inv.subtotal * (1/10)) ∧
       inv.total_amount = quantize2 (inv.subtotal + inv.tax_amount)) ∧
      inv.subtotal = 92588/100 ∧ inv.tax_amount = 9259/100 ∧
      inv.total_amount = 101847/100 := by
  refine ⟨_, _, rfl, C1_generate_invoice_totals stScenD 1 1 none 0 _ _ rfl,
    ?_, ?_, ?_⟩ <;> decide

/-- C3 (amended): the audited state-changing workflow operations —
`create_sow`, `submit_sow`, `approve_sow`, `reject_sow`, `create_timesheet`,
`update_timesheet`, `create_project_from_sow`, `generate_invoice` — each
append exactly one audit record as part of the same transaction as the
entity mutation, every SOW state transition capturing the before and after
status; but `update_sow`, `send_invoice` and `mark_invoice_paid` mutate
their entity and append no audit record at all. -/
theorem C3_audit_coverage :
    (∀ (s : Store) (data : SOWCreate) (cb : Nat) (c : Client),
        s.clients.find? (fun x => x.id == data.client_id) = some c →
        ∃ r e, create_sow s data cb = .ok r ∧
          r.2.auditLogs = s.auditLogs ++ [e] ∧
          e.action = "create" ∧ e.entity_type = "sow" ∧ e.entity_id = r.1.id) ∧
    (∀ (s : Store) (i : Nat) (sow : SOW),
        s.sows.find? (fun x => x.id == i) = some sow → sow.status = "draft" →
        ∃ r e, submit_sow s i = .ok r ∧ r.2.auditLogs = s.auditLogs ++ [e] ∧
          e.action = "submit" ∧ e.entity_type = "sow" ∧ e.entity_id = sow.id ∧
          e.old_values = some [("status", "draft")] ∧
          e.new_values = some [("status", "pending")]) ∧
    (∀ (s : Store) (i : Nat) (ap : Bool) (u : Nat) (now : Int) (sow : SOW),
        s.sows.find? (fun x => x.id == i) = some sow → sow.status = "pending" →
        ∃ r e, approve_sow s i ap u now = .ok r ∧
          r.2.auditLogs = s.auditLogs ++ [e] ∧
          e.entity_type = "sow" ∧ e.entity_id = sow.id ∧
          e.old_values = some [("status", "pending")] ∧
          e.new_values = some [("status", if ap then "approved" else "rejected"),
                               ("approved_by", toString u),
                               ("approved_at", toString now)]) ∧
    (∀ (s : Store) (i : Nat) (u : Nat) (nts : String) (now : Int) (sow : SOW),
        s.sows.find? (fun x => x.id == i) = some sow → sow.status = "pending" →
        ∃ r e, reject_sow s i u nts now = .ok r ∧
          r.2.auditLogs = s.auditLogs ++ [e] ∧
          e.entity_type = "sow" ∧ e.entity_id = sow.id ∧
          e.old_values = some [("status", "pending")] ∧
          e.new_values = some [("status", "rejected"),
                               ("approved_by", toString u),
                               ("approved_at", toString now)]) ∧
    (∀ (s : Store) (pid cid : Nat) (wd : Int) (hl br : ℚ) (ib : Bool)
        (nt : Option String) (cb : Option Nat) (proj : Project),
        s.projects.find? (fun p => p.id == pid) = some proj →
        ¬(wd < proj.start_date ∨ wd > proj.end_date) → ¬(hl ≤ 0 ∨ hl > 24) →
        ∃ r e, create_timesheet s pid cid wd hl br ib nt cb = .ok r ∧
          r.2.auditLogs = s.auditLogs ++ [e] ∧
          e.action = "create" ∧ e.entity_type = "timesheet" ∧
          e.entity_id = r.1.id) ∧
    (∀ (s : Store) (i : Nat) (wd : Option Int) (hl br : Option ℚ)
        (ib : Option Bool) (nt : Option String) (ub : Option Nat) (now : Int)
        (t : Timesheet),
        s.timesheets.find? (fun x => x.id == i) = some t → t.status = "draft" →
        ∃ r e, update_timesheet s i wd hl br ib nt ub now = .ok r ∧
          r.2.auditLogs = s.auditLogs ++ [e] ∧
          e.action = "update" ∧ e.entity_type = "timesheet" ∧
          e.old_values.isSome = true) ∧
    (∀ (s : Store) (i cb : Nat) (sow : SOW),
        s.sows.find? (fun x => x.id == i) = some sow → sow.status = "approved" →
        s.projects.find? (fun p => p.sow_id == i) = none →
        ∃ r e, create_project_from_sow s i cb = .ok r ∧
          r.2.auditLogs = s.auditLogs ++ [e] ∧
          e.action = "create" ∧ e.entity_type = "project" ∧
          e.entity_id = r.1.id) ∧
    (∀ (s : Store) (cid pid : Nat) (cb : Option Nat) (d : Int) (inv : Invoice)
        (s2 : Store),
        generate_invoice s cid pid cb d = .ok (inv, s2) →
        ∃ e, s2.auditLogs = s.auditLogs ++ [e] ∧
          e.action = "create" ∧ e.entity_type = "invoice" ∧
          e.entity_id = inv.id) ∧
    (∀ (s : Store) (i : Nat) (u : SOWUpdate) (sow : SOW),
        s.sows.find? (fun x => x.id == i) = some sow → sow.status = "draft" →
        ∃ r, update_sow s i u = .ok r ∧ r.2.auditLogs = s.auditLogs) ∧
    (∀ (s : Store) (i : Nat) (inv : Invoice),
        s.invoices.find? (fun x => x.id == i) = some inv → inv.status = "draft" →
        ∃ r, send_invoice s i "admin" = .ok r ∧ r.2.auditLogs = s.auditLogs) ∧
    (∀ (s : Store) (i : Nat) (pd : Int) (inv : Invoice),
        s.invoices.find? (fun x => x.id == i) = some inv → inv.status ≠ "paid" →
        ∃ r, mark_invoice_paid s i pd "admin" = .ok r ∧
          r.2.auditLogs = s.auditLogs) := by
  refine ⟨?_, ?_, ?_, ?_, ?_, ?_, ?_, ?_, ?_, ?_, ?_⟩
  · intro s data cb c h
    simp only [create_sow, h]
    exact ⟨_, _, rfl, rfl, rfl, rfl, rfl⟩
  · intro s i sow h hst
    simp only [submit_sow, h]
    rw [if_neg (by simp [hst])]
    refine ⟨_, _, rfl, rfl, rfl, rfl, rfl, ?_, rfl⟩
    rw [hst]
    rfl
  · intro s i ap u now sow h hst
    simp only [approve_sow, h]
    rw [if_neg (by simp [hst])]
    refine ⟨_, _, rfl, rfl, rfl, rfl, ?_, rfl⟩
    rw [hst]
    rfl
  · intro s i u nts now sow h hst
    simp only [reject_sow, approve_sow, h]
    rw [if_neg (by simp [hst])]
    refine ⟨_, _, rfl, rfl, rfl, rfl, ?_, rfl⟩
    rw [hst]
    rfl
  · intro s pid cid wd hl br ib nt cb proj h hd hh
    simp only [create_timesheet, h]
    rw [if_neg hd, if_neg hh]
    exact ⟨_, _, rfl, rfl, rfl, rfl, rfl⟩
  · intro s i wd hl br ib nt ub now t h hst
    simp only [update_timesheet, h]
    rw [if_neg (by simp [hst])]
    exact ⟨_, _, rfl, rfl, rfl, rfl, rfl⟩
  · intro s i cb sow h hst hex
    simp only [create_project_from_sow, h]
    rw [if_neg (by simp [hst])]
    rw [if_neg (by simp [hex])]
    exact ⟨_, _, rfl, rfl, rfl, rfl, rfl⟩
  · intro s cid pid cb d inv s2 h
    simp only [generate_invoice] at h
    split at h
    · simp at h
    · split at h
      · simp at h
      · split at h
        · simp at h
        · rw [Except.ok.injEq, Prod.mk.injEq] at h
          obtain ⟨h1, h2⟩ := h
          subst h2
          exact ⟨_, rfl, rfl, rfl, by rw [← h1]⟩
  · intro s i u sow h hst
    simp only [update_sow, h]
    rw [if_neg (by simp [hst])]
    exact ⟨_, rfl, rfl⟩
  · intro s i inv h hst
    simp only [send_invoice, h]
    rw [if_neg (by simp)]
    rw [if_neg (by simp [hst])]
    exact ⟨_, rfl, rfl⟩
  · intro s i pd inv h hst
    simp only [mark_invoice_paid, h]
    rw [if_neg (by simp)]
    rw [if_neg hst]
    exact ⟨_, rfl, rfl⟩

unseal Rat.add Rat.mul Rat.inv Rat.sub in
/-- C3 witness: on concrete stores, creating a SOW, submitting a draft SOW,
approving and rejecting a pending SOW, creating and updating a timesheet,
deriving a project and generating an invoice each append one audit entry
(the SOW transitions with before/after status), while updating a draft SOW,
sending a draft invoice and marking it paid leave the audit log untouched. -/
theorem C3_audit_coverage_witness :
    (∃ r e, create_sow stProj sowCreateData 7 = .ok r ∧
      r.2.auditLogs = stProj.auditLogs ++ [e] ∧
      e.action = "create" ∧ e.entity_type = "sow" ∧ e.entity_id = r.1.id) ∧
    (∃ r e, submit_sow stDraftSow 1 = .ok r ∧
      r.2.auditLogs = stDraftSow.auditLogs ++ [e] ∧
      e.action = "submit" ∧ e.entity_type = "sow" ∧ e.entity_id = sowDraft.id ∧
      e.old_values = some [("status", "draft")] ∧
      e.new_values = some [("status", "pending")]) ∧
    (∃ r e, approve_sow stPendingSow 1 true 9 50 = .ok r ∧
      r.2.auditLogs = stPendingSow.auditLogs ++ [e] ∧
      e.entity_type = "sow" ∧ e.entity_id = sowPending.id ∧
      e.old_values = some [("status", "pending")] ∧
      e.new_values = some [("status", if true then "approved" else "rejected"),
                           ("approved_by", toString (9 : Nat)),
                           ("approved_at", toString (50 : Int))]) ∧
    (∃ r e, reject_sow stPendingSow 1 9 "no" 50 = .ok r ∧
      r.2.auditLogs = stPendingSow.auditLogs ++ [e] ∧
      e.entity_type = "sow" ∧ e.entity_id = sowPending.id ∧
      e.old_values = some [("status", "pending")] ∧
      e.new_values = some [("status", "rejected"),
                           ("approved_by", toString (9 : Nat)),
                           ("approved_at", toString (50 : Int))]) ∧
    (∃ r e, create_timesheet stProj 1 2 5 8 150 true none none = .ok r ∧
      r.2.auditLogs = stProj.auditLogs ++ [e] ∧
      e.action = "create" ∧ e.entity_type = "timesheet" ∧
      e.entity_id = r.1.id) ∧
    (∃ r e, update_timesheet stDraftTs 1 none (some 3) none none none none 7 =
        .ok r ∧
      r.2.auditLogs = stDraftTs.auditLogs ++ [e] ∧
      e.action = "update" ∧ e.entity_type = "timesheet" ∧
      e.old_values.isSome = true) ∧
    (∃ r e, create_project_from_sow stApprovedSow 1 7 = .ok r ∧
      r.2.auditLogs = stApprovedSow.auditLogs ++ [e] ∧
      e.action = "create" ∧ e.entity_type = "project" ∧
      e.entity_id = r.1.id) ∧
    (∃ inv s2, generate_invoice stScenC 1 1 none 0 = .ok (inv, s2) ∧
      ∃ e, s2.auditLogs = stScenC.auditLogs ++ [e] ∧
        e.action = "create" ∧ e.entity_type = "invoice" ∧
        e.entity_id = inv.id) ∧
    (∃ r, update_sow stDraftSow 1 { title := some "T2" } = .ok r ∧
      r.2.auditLogs = stDraftSow.auditLogs) ∧
    (∃ r, send_invoice stDraftInvoice 1 "admin" = .ok r ∧
      r.2.auditLogs = stDraftInvoice.auditLogs) ∧
    (∃ r, mark_invoice_paid stDraftInvoice 1 77 "admin" = .ok r ∧
      r.2.auditLogs = stDraftInvoice.auditLogs) := by
  obtain ⟨h1, h2, h3, h4, h5, h6, h7, h8, h9, h10, h11⟩ := C3_audit_coverage
  refine ⟨h1 stProj sowCreateData 7 { id := 1 } (by decide),
          h2 stDraftSow 1 sowDraft (by decide) (by decide),
          h3 stPendingSow 1 true 9 50 sowPending (by decide) (by decide),
          h4 stPendingSow 1 9 "no" 50 sowPending (by decide) (by decide),
          h5 stProj 1 2 5 8 150 true none none projP (by decide) (by decide)
            (by decide),
          h6 stDraftTs 1 none (some 3) none none none none 7 tsDraft (by decide)
            (by decide),
          h7 stApprovedSow 1 7 sowApproved (by decide) (by decide) (by decide),
          ?_,
          h9 stDraftSow 1 { title := some "T2" } sowDraft (by decide) (by decide),
          h10 stDraftInvoice 1 invDraft (by decide) (by decide),
          h11 stDraftInvoice 1 77 invDraft (by decide) (by decide)⟩
  exact ⟨_, _, rfl, h8 stScenC 1 1 none 0 _ _ rfl⟩

theorem validate_after_generate (s : Store) (n : Nat) (tss : List Timesheet)
    (inv : Invoice) (s3 : Store)
    (hsub : inv.subtotal = (tss.map Timesheet.billable_amount).sum)
    (htax : inv.tax_amount = quantize2 (inv.subtotal * (1/10)))
    (htot : inv.total_amount = quantize2 (inv.subtotal + inv.tax_amount))
    (hinvoices : s3.invoices = s.invoices ++ [inv])
    (hitems : s3.lineItems = s.lineItems ++ mkLineItems n inv.id tss)
    (hIds : ∀ i ∈ s.invoices, i.id ≠ inv.id)
    (hLis : ∀ li ∈ s.lineItems, li.invoice_id ≠ inv.id) :
    validate_invoice_totals s3 inv.id = .ok true := by
  have hfindnone : s.invoices.find? (fun x => x.id == inv.id) = none := by
    rw [List.find?_eq_none]
    intro x hx
    simpa using hIds x hx
  have hfind : s3.invoices.find? (fun x => x.id == inv.id) = some inv := by
    rw [hinvoices, find?_append_none hfindnone]
    simp [List.find?]
  have hfil : s3.lineItems.filter (fun li => li.invoice_id == inv.id) =
      mkLineItems n inv.id tss := by
    rw [hitems, List.filter_append]
    rw [List.filter_eq_nil_iff.mpr (by intro a ha; simpa using hLis a ha)]
    rw [List.filter_eq_self.mpr
      (by intro a ha; simp [mkLineItems_invoice_id n inv.id tss a ha])]
    simp
  simp only [validate_invoice_totals, hfind, hfil, mkLineItems_map_line_total]
  rw [← hsub, ← htax, ← htot]
  simp

/-- C6: whenever `generate_invoice` succeeds on a store whose invoice and
line-item ids respect the autoincrement counter, running
`validate_invoice_totals` on the produced invoice in the resulting store
returns `.ok true` (never raises): the line-item totals re-sum exactly to
the persisted subtotal, tax and total. -/
theorem C6_generate_then_validate (s : Store) (cid pid : Nat) (cb : Option Nat)
    (d : Int)
    (hIds : ∀ i ∈ s.invoices, i.id < s.nextInvoiceId)
    (hLis : ∀ li ∈ s.lineItems, li.invoice_id < s.nextInvoiceId)
    (inv : Invoice) (s2 : Store)
    (h : generate_invoice s cid pid cb d = .ok (inv, s2)) :
    validate_invoice_totals s2 inv.id = .ok true := by
  simp only [generate_invoice] at h
  split at h
  · simp at h
  · split at h
    · simp at h
    · split at h
      · simp at h
      · rw [Except.ok.injEq, Prod.mk.injEq] at h
        obtain ⟨h1, h2⟩ := h
        subst h1
        subst h2
        exact validate_after_generate s s.nextLineItemId (selectTimesheets s pid)
          _ _ rfl rfl rfl rfl rfl
          (fun i hi => Nat.ne_of_lt (hIds i hi))
          (fun li hli => Nat.ne_of_lt (hLis li hli))

unseal Rat.add Rat.mul Rat.inv Rat.sub in
/-- C6 witness: generating the Scenario C invoice (3 timesheets at 1200
each) and validating it in the resulting store returns `.ok true`. -/
theorem C6_generate_then_validate_witness :
    ∃ inv s2, generate_invoice stScenC 1 1 none 0 = .ok (inv, s2) ∧
      validate_invoice_totals s2 inv.id = .ok true := by
  refine ⟨_, _, rfl, ?_⟩
  exact C6_generate_then_validate stScenC 1 1 none 0 (by decide) (by decide) _ _ rfl

/-- C7: for each timesheet selected by `generate_invoice` exactly one line
item is created — in order, with description "Consulting services -
{work_date}", `quantity = hours_logged`, `unit_price = billing_rate`,
`line_total = billable_amount`, attached to the new invoice — pre-existing
line items are untouched, and every selected timesheet gets its `invoice_id`
set to the new invoice's id while unselected timesheets are unchanged. -/
theorem C7_line_items_per_timesheet (s : Store) (cid pid : Nat) (cb : Option Nat)
    (d : Int) (inv : Invoice) (s2 : Store)
    (h : generate_invoice s cid pid cb d = .ok (inv, s2)) :
    s2.lineItems.take s.lineItems.length = s.lineItems ∧
    List.Forall₂ (fun li t =>
        li.invoice_id = inv.id ∧
        li.description = "Consulting services - " ++ toString t.work_date ∧
        li.quantity = t.hours_logged ∧ li.unit_price = t.billing_rate ∧
        li.line_total = t.billable_amount)
      (s2.lineItems.drop s.lineItems.length) (selectTimesheets s pid) ∧
    List.Forall₂ (fun t t2 =>
        (invoiceSel pid t = true → t2 = { t with invoice_id := some inv.id }) ∧
        (invoiceSel pid t = false → t2 = t))
      s.timesheets s2.timesheets := by
  simp only [generate_invoice] at h
  split at h
  · simp at h
  · split at h
    · simp at h
    · split at h
      · simp at h
      · rw [Except.ok.injEq, Prod.mk.injEq] at h
        obtain ⟨h1, h2⟩ := h
        have hLI : s2.lineItems =
            s.lineItems ++ mkLineItems s.nextLineItemId inv.id
              (selectTimesheets s pid) := by
          rw [← h2, ← h1]
          exact rfl
        have hTS : s2.timesheets = s.timesheets.map (fun t =>
            if invoiceSel pid t then { t with invoice_id := some inv.id }
            else t) := by
          rw [← h2, ← h1]
          exact rfl
        refine ⟨?_, ?_, ?_⟩
        · rw [hLI, List.take_left]
        · rw [hLI, List.drop_left]
          exact mkLineItems_forall₂ inv.id s.nextLineItemId
            (selectTimesheets s pid)
        · rw [hTS]
          refine List.forall₂_map_right_iff.mpr (List.forall₂_same.mpr ?_)
          intro t ht
          refine ⟨fun hsel => ?_, fun hsel => ?_⟩
          · simp [hsel]
          · simp [hsel]

unseal Rat.add Rat.mul Rat.inv Rat.sub in
/-- C7 witness: invoicing the 3 approved Scenario C timesheets creates
exactly 3 line items with the stated fields and sets a non-null
`invoice_id` on all 3 timesheets. -/
theorem C7_line_items_per_timesheet_witness :
    ∃ inv s2, generate_invoice stScenC 1 1 none 0 = .ok (inv, s2) ∧
      s2.lineItems.take stScenC.lineItems.length = stScenC.lineItems ∧
      List.Forall₂ (fun li t =>
          li.invoice_id = inv.id ∧
          li.description = "Consulting services - " ++ toString t.work_date ∧
          li.quantity = t.hours_logged ∧ li.unit_price = t.billing_rate ∧
          li.line_total = t.billable_amount)
        (s2.lineItems.drop stScenC.lineItems.length) (selectTimesheets stScenC 1) ∧
      List.Forall₂ (fun t t2 =>
          (invoiceSel 1 t = true → t2 = { t with invoice_id := some inv.id }) ∧
          (invoiceSel 1 t = false → t2 = t))
        stScenC.timesheets s2.timesheets ∧
      s2.lineItems.length = 3 ∧
      s2.timesheets.length = 3 ∧
      (∀ t ∈ s2.timesheets, t.invoice_id.isSome = true) := by
  refine ⟨_, _, rfl, ?_, ?_, ?_, ?_, ?_, ?_⟩
  · exact (C7_line_items_per_timesheet stScenC 1 1 none 0 _ _ rfl).1
  · exact (C7_line_items_per_timesheet stScenC 1 1 none 0 _ _ rfl).2.1
  · exact (C7_line_items_per_timesheet stScenC 1 1 none 0 _ _ rfl).2.2
  · decide
  · decide
  · decide

end Votra
